import Mathlib

/-
Formal model of the vf-dentist-mcp appointment-booking service
(src/server.js): JavaScript date parsing (the ECMAScript Date Time
String Format), the weekend rule, the authentication middleware, and
the POST handlers for /check, /create, /update and /delete.  The
Calendar Gateway (Google Calendar) and the random source feeding
uuidv4 are external collaborators; they enter the model as explicit
inputs of the handler functions.
-/

namespace VfDentist

/-- A JavaScript value as it can appear in a parsed JSON request body
field that the server feeds to `new Date(...)`: absent (`undefined`),
`null`, a string, a number, or a non-coercible object. -/
inductive JsVal where
  | undef
  | jsnull
  | str (s : String)
  | num (n : Int)
  | obj
deriving DecidableEq

/-- Gregorian leap-year test. -/
def isLeap (y : Nat) : Bool :=
  y % 4 == 0 && (y % 100 != 0 || y % 400 == 0)

/-- Length of month `m` (1-12) of year `y`. -/
def daysInMonth (y m : Nat) : Nat :=
  if m = 2 then (if isLeap y then 29 else 28)
  else if m = 4 ∨ m = 6 ∨ m = 9 ∨ m = 11 then 30
  else 31

/-- Days from the Unix epoch (1970-01-01) to the civil date `y-m-d`
(proleptic Gregorian), the standard days-from-civil computation. -/
def daysFromCivil (y m d : Nat) : Int :=
  let yy : Nat := if m ≤ 2 then y + 399 else y + 400
  let era : Nat := yy / 400
  let yoe : Nat := yy % 400
  let mp : Nat := (m + 9) % 12
  let doy : Nat := (153 * mp + 2) / 5 + d - 1
  let doe : Nat := yoe * 365 + yoe / 4 - yoe / 100 + doy
  (era : Int) * 146097 + (doe : Int) - 865565

/-- UTC weekday of an epoch-milliseconds instant, exactly ECMAScript
WeekDay(t) = (Day(t) + 4) modulo 7; 0 is Sunday, 6 is Saturday. -/
def utcWeekday (ms : Int) : Int :=
  (Int.fdiv ms 86400000 + 4) % 7

/-- Value of a decimal digit character, `none` on a non-digit. -/
def digitVal (c : Char) : Option Nat :=
  if 48 ≤ c.toNat ∧ c.toNat ≤ 57 then some (c.toNat - 48) else none

/-- Read exactly `n` decimal digits, returning the accumulated value
and the remaining characters. -/
def readDigits : Nat → Nat → List Char → Option (Nat × List Char)
  | 0, acc, cs => some (acc, cs)
  | _ + 1, _, [] => none
  | n + 1, acc, c :: cs =>
    match digitVal c with
    | some d => readDigits n (acc * 10 + d) cs
    | none => none

/-- Parse the timezone designator that may close a date-time string:
empty (local time, inner `none`), `Z` (UTC), or a `+HH:MM` / `-HH:MM`
offset.  Outer `none` means the string is not well-formed. -/
def parseOffset : List Char → Option (Option Int)
  | [] => some none
  | ['Z'] => some (some 0)
  | c :: cs =>
    if c = '+' ∨ c = '-' then
      match readDigits 2 0 cs with
      | some (h, ':' :: cs2) =>
        match readDigits 2 0 cs2 with
        | some (mi, []) =>
          if h ≤ 23 ∧ mi ≤ 59 then
            some (some ((if c = '+' then 1 else -1) * (60 * (h : Int) + (mi : Int))))
          else none
        | _ => none
      | _ => none
    else none

/-- Parse `HH:MM[:SS[.sss]]` followed by an optional timezone
designator.  Returns hour, minute, second, millisecond and offset. -/
def parseTime (cs : List Char) : Option (Nat × Nat × Nat × Nat × Option Int) :=
  match readDigits 2 0 cs with
  | some (h, ':' :: cs1) =>
    match readDigits 2 0 cs1 with
    | some (mi, ':' :: cs2) =>
      match readDigits 2 0 cs2 with
      | some (s, '.' :: cs3) =>
        match readDigits 3 0 cs3 with
        | some (ms, cs4) => (parseOffset cs4).map fun o => (h, mi, s, ms, o)
        | none => none
      | some (s, cs3) => (parseOffset cs3).map fun o => (h, mi, s, 0, o)
      | none => none
    | some (mi, cs2) => (parseOffset cs2).map fun o => (h, mi, 0, 0, o)
    | none => none
  | _ => none

/-- Parse `YYYY[-MM[-DD]]`, returning year, month, day and the rest of
the string; omitted month and day default to 1. -/
def parseDate (cs : List Char) : Option (Nat × Nat × Nat × List Char) :=
  match readDigits 4 0 cs with
  | some (y, '-' :: cs1) =>
    match readDigits 2 0 cs1 with
    | some (m, '-' :: cs2) =>
      match readDigits 2 0 cs2 with
      | some (d, rest) => some (y, m, d, rest)
      | none => none
    | some (m, rest) => some (y, m, 1, rest)
    | none => none
  | some (y, rest) => some (y, 1, 1, rest)
  | none => none

/-- The fields of a well-formed ECMAScript Date Time String. -/
structure ParsedDT where
  year : Nat
  month : Nat
  day : Nat
  hour : Nat
  minute : Nat
  second : Nat
  milli : Nat
  /-- Offset east of UTC in minutes; `none` means no designator was
  present (JavaScript then interprets the time as host-local). -/
  offsetMin : Option Int
deriving DecidableEq

/-- Parse a string in the ECMAScript Date Time String Format
`YYYY-MM-DD[THH:MM[:SS[.sss]]][Z|+HH:MM|-HH:MM]` (the format whose
acceptance ECMA-262 guarantees for `new Date(string)`), checking the
field ranges; a date-only form denotes midnight UTC. -/
def parseDT (s : String) : Option ParsedDT :=
  match parseDate s.data with
  | none => none
  | some (y, m, d, rest) =>
    if 1 ≤ m ∧ m ≤ 12 ∧ 1 ≤ d ∧ d ≤ daysInMonth y m then
      match rest with
      | [] => some ⟨y, m, d, 0, 0, 0, 0, some 0⟩
      | 'T' :: tcs =>
        match parseTime tcs with
        | some (h, mi, sec, ms, off) =>
          if (h ≤ 23 ∨ (h = 24 ∧ mi = 0 ∧ sec = 0 ∧ ms = 0)) ∧ mi ≤ 59 ∧ sec ≤ 59 then
            some ⟨y, m, d, h, mi, sec, ms, off⟩
          else none
        | none => none
      | _ => none
    else none

/-- Epoch milliseconds of a parsed date-time; `tz` is the host's local
offset east of UTC in minutes, used when the string carries no
timezone designator. -/
def epochMsOf (tz : Int) (p : ParsedDT) : Int :=
  daysFromCivil p.year p.month p.day * 86400000 +
    ((p.hour * 3600000 + p.minute * 60000 + p.second * 1000 + p.milli : Nat) : Int) -
    (p.offsetMin.getD tz) * 60000

/-- `new Date(string)` reduced to its time value: `some` epoch
milliseconds when the string parses and lands inside the ECMAScript
time range, `none` for an Invalid Date (time value NaN). -/
def jsParseDate (tz : Int) (s : String) : Option Int :=
  match parseDT s with
  | none => none
  | some p =>
    let ms := epochMsOf tz p
    if ms.natAbs ≤ 8640000000000000 then some ms else none

/-- `new Date(v)` on a request-body field `v`: `undefined` and plain
objects give an Invalid Date, `null` and numbers are coerced to a
numeric time value, strings are parsed. -/
def jsNewDate (tz : Int) (v : JsVal) : Option Int :=
  match v with
  | .undef => none
  | .jsnull => some 0
  | .num n => if n.natAbs ≤ 8640000000000000 then some n else none
  | .str s => jsParseDate tz s
  | .obj => none

/-- `isWeekend` from src/server.js lines 127-130:
`const d = new Date(dateString); return d.getUTCDay() === 0 || d.getUTCDay() === 6;`.
On an Invalid Date `getUTCDay()` is NaN and both strict equalities are
false, so the function returns `false`. -/
def isWeekend (tz : Int) (v : JsVal) : Bool :=
  match jsNewDate tz v with
  | none => false
  | some ms => utcWeekday ms == 0 || utcWeekday ms == 6

/-- The 16 random bytes drawn by `uuidv4()` for one call (the `uuid`
package's v4 generator reads 16 bytes from the platform random
source). -/
structure Bytes16 where
  b0 : Nat
  b1 : Nat
  b2 : Nat
  b3 : Nat
  b4 : Nat
  b5 : Nat
  b6 : Nat
  b7 : Nat
  b8 : Nat
  b9 : Nat
  b10 : Nat
  b11 : Nat
  b12 : Nat
  b13 : Nat
  b14 : Nat
  b15 : Nat
deriving DecidableEq

/-- Every field is a byte. -/
def Bytes16.valid (x : Bytes16) : Prop :=
  x.b0 < 256 ∧ x.b1 < 256 ∧ x.b2 < 256 ∧ x.b3 < 256 ∧
  x.b4 < 256 ∧ x.b5 < 256 ∧ x.b6 < 256 ∧ x.b7 < 256 ∧
  x.b8 < 256 ∧ x.b9 < 256 ∧ x.b10 < 256 ∧ x.b11 < 256 ∧
  x.b12 < 256 ∧ x.b13 < 256 ∧ x.b14 < 256 ∧ x.b15 < 256

instance (x : Bytes16) : Decidable x.valid := by
  unfold Bytes16.valid; infer_instance

/-- Lower-case hexadecimal digit character. -/
def hexDigit (n : Nat) : Char :=
  match n with
  | 0 => '0' | 1 => '1' | 2 => '2' | 3 => '3' | 4 => '4'
  | 5 => '5' | 6 => '6' | 7 => '7' | 8 => '8' | 9 => '9'
  | 10 => 'a' | 11 => 'b' | 12 => 'c' | 13 => 'd' | 14 => 'e'
  | _ => 'f'

/-- RFC 4122 version-4 masking applied by `uuidv4()`:
`rnds[6] = (rnds[6] & 0x0f) | 0x40` and `rnds[8] = (rnds[8] & 0x3f) | 0x80`. -/
def uuidMask (x : Bytes16) : Bytes16 :=
  { x with b6 := 64 + x.b6 % 16, b8 := 128 + x.b8 % 64 }

/-- Hex rendering of 16 bytes in the 8-4-4-4-12 UUID layout (the
`uuid` package's stringify step, each byte as two hex digits with
dashes after bytes 3, 5, 7 and 9). -/
def uuidChars (x : Bytes16) : List Char :=
  [hexDigit (x.b0 / 16), hexDigit (x.b0 % 16),
   hexDigit (x.b1 / 16), hexDigit (x.b1 % 16),
   hexDigit (x.b2 / 16), hexDigit (x.b2 % 16),
   hexDigit (x.b3 / 16), hexDigit (x.b3 % 16), '-',
   hexDigit (x.b4 / 16), hexDigit (x.b4 % 16),
   hexDigit (x.b5 / 16), hexDigit (x.b5 % 16), '-',
   hexDigit (x.b6 / 16), hexDigit (x.b6 % 16),
   hexDigit (x.b7 / 16), hexDigit (x.b7 % 16), '-',
   hexDigit (x.b8 / 16), hexDigit (x.b8 % 16),
   hexDigit (x.b9 / 16), hexDigit (x.b9 % 16), '-',
   hexDigit (x.b10 / 16), hexDigit (x.b10 % 16),
   hexDigit (x.b11 / 16), hexDigit (x.b11 % 16),
   hexDigit (x.b12 / 16), hexDigit (x.b12 % 16),
   hexDigit (x.b13 / 16), hexDigit (x.b13 % 16),
   hexDigit (x.b14 / 16), hexDigit (x.b14 % 16),
   hexDigit (x.b15 / 16), hexDigit (x.b15 % 16)]

/-- `uuidv4()` on one draw of 16 random bytes. -/
def uuidString (x : Bytes16) : String :=
  String.mk (uuidChars (uuidMask x))

/-- The response bodies the service can serialize with `res.json`. -/
inductive RespBody where
  /-- `{available:false, reason}` -/
  | availFalse (reason : String)
  /-- `{available:true, token}` -/
  | availTrue (token : String)
  /-- `{error: message}` -/
  | errorMsg (msg : String)
  /-- `{success:true, eventId}` -/
  | createdOk (eventId : String)
  /-- `{success:true, event}` -/
  | updatedOk (eventData : String)
  /-- `{success:true}` -/
  | deletedOk
deriving DecidableEq

/-- An HTTP response: status code plus JSON body (`res.json` leaves
the status at 200 unless `res.status` set it). -/
structure HttpResp where
  status : Nat
  body : RespBody
deriving DecidableEq

/-- An error thrown by a Calendar Gateway call: `message` is the
JavaScript `Error#message` the handlers echo, `detail` is the
diagnostic payload `err.response?.data` that `console.error` logs. -/
structure GwError where
  message : String
  detail : Option String
deriving DecidableEq

/-- A remote calendar event as returned by the gateway's list call;
only its presence matters to `hasConflict` (`items.length > 0`). -/
structure CalEvent where
  id : String
deriving DecidableEq

/-- Outcome of the `calendar.events.list` range query issued by
`hasConflict`. -/
inductive GwListResult where
  | ok (items : List CalEvent)
  | err (e : GwError)
deriving DecidableEq

/-- `hasConflict` from src/server.js lines 132-147: on a successful
list call it returns `items.length > 0`; on a gateway error it logs
the detail and throws `new Error("google_calendar_error")`. -/
def hasConflict (gw : GwListResult) : Except String Bool :=
  match gw with
  | .ok items => .ok (decide (items.length > 0))
  | .err _ => .error "google_calendar_error"

/-- Body of a POST /check request. -/
structure CheckBody where
  start : JsVal
  /-- The `end` field (named `endv` because `end` is reserved). -/
  endv : JsVal
deriving DecidableEq

/-- Everything observable about one run of the /check handler: the
HTTP response, whether the Calendar Gateway was queried, and the
`timeMin`/`timeMax` values the query carried. -/
structure CheckOutcome where
  resp : HttpResp
  gwQueried : Bool
  queryMin : Option JsVal
  queryMax : Option JsVal
deriving DecidableEq

/-- The POST /check handler, src/server.js lines 154-172.  `tz` is
the host timezone, `gw` the Calendar Gateway's answer to the range
query over [start, end), and `seed` the random bytes the `uuidv4()`
call would consume. -/
def checkHandler (tz : Int) (b : CheckBody) (gw : GwListResult) (seed : Bytes16) :
    CheckOutcome :=
  if isWeekend tz b.start then
    { resp := ⟨200, .availFalse "weekend_not_allowed"⟩,
      gwQueried := false, queryMin := none, queryMax := none }
  else
    match hasConflict gw with
    | .error m =>
      { resp := ⟨500, .errorMsg m⟩,
        gwQueried := true, queryMin := some b.start, queryMax := some b.endv }
    | .ok true =>
      { resp := ⟨200, .availFalse "double_booking"⟩,
        gwQueried := true, queryMin := some b.start, queryMax := some b.endv }
    | .ok false =>
      { resp := ⟨200, .availTrue (uuidString seed)⟩,
        gwQueried := true, queryMin := some b.start, queryMax := some b.endv }

/-- JavaScript truthiness of an optional string field or header:
`undefined` and the empty string are falsy. -/
def jsFalsy (v : Option String) : Bool :=
  v == none || v == some ""

/-- Patient contact details as sent to /create. -/
structure Patient where
  name : Option String
  email : Option String
  phone : Option String
deriving DecidableEq

/-- Rendering of a possibly-undefined string in a template literal. -/
def jsShow (v : Option String) : String :=
  v.getD "undefined"

/-- Body of a POST /create request. -/
structure CreateBody where
  token : Option String
  title : Option String
  start : JsVal
  endv : JsVal
  patient : Option Patient
deriving DecidableEq

/-- The event resource /create submits to `calendar.events.insert`. -/
structure EventResource where
  summary : Option String
  description : String
  startDT : JsVal
  endDT : JsVal
  timeZone : String
deriving DecidableEq

/-- The event object built by the /create handler (src/server.js
lines 180-185), with the patient fields spliced into the description
via `patient?.name` etc. -/
def buildEvent (b : CreateBody) : EventResource :=
  { summary := b.title,
    description :=
      "Name: " ++ jsShow (b.patient.bind Patient.name) ++
      "\nEmail: " ++ jsShow (b.patient.bind Patient.email) ++
      "\nPhone: " ++ jsShow (b.patient.bind Patient.phone),
    startDT := b.start, endDT := b.endv, timeZone := "Pacific/Auckland" }

/-- Everything observable about one run of the /create handler. -/
structure CreateOutcome where
  resp : HttpResp
  gwCalled : Bool
  /-- The resource passed to `calendar.events.insert`, when called. -/
  sentEvent : Option EventResource
  /-- Gateway errors logged with `console.error` (detail included). -/
  logged : List GwError
deriving DecidableEq

/-- The POST /create handler, src/server.js lines 175-198.  `gw` is
the Calendar Gateway's answer to the insert (the created event id on
success). -/
def createHandler (b : CreateBody) (gw : Except GwError String) : CreateOutcome :=
  if jsFalsy b.token then
    { resp := ⟨400, .errorMsg "No reservation token"⟩,
      gwCalled := false, sentEvent := none, logged := [] }
  else
    match gw with
    | .ok eid =>
      { resp := ⟨200, .createdOk eid⟩,
        gwCalled := true, sentEvent := some (buildEvent b), logged := [] }
    | .error e =>
      { resp := ⟨500, .errorMsg e.message⟩,
        gwCalled := true, sentEvent := some (buildEvent b), logged := [e] }

/-- Body of a POST /update request. -/
structure UpdateBody where
  eventId : Option String
  start : JsVal
  endv : JsVal
deriving DecidableEq

/-- Everything observable about one run of the /update handler. -/
structure UpdateOutcome where
  resp : HttpResp
  gwCalled : Bool
  logged : List GwError
deriving DecidableEq

/-- The POST /update handler, src/server.js lines 201-219; `gw` is
the gateway's answer to the patch (`updated.data` as a payload). -/
def updateHandler (_b : UpdateBody) (gw : Except GwError String) : UpdateOutcome :=
  match gw with
  | .ok dat => { resp := ⟨200, .updatedOk dat⟩, gwCalled := true, logged := [] }
  | .error e => { resp := ⟨500, .errorMsg e.message⟩, gwCalled := true, logged := [e] }

/-- Body of a POST /delete request. -/
structure DeleteBody where
  eventId : Option String
deriving DecidableEq

/-- Everything observable about one run of the /delete handler. -/
structure DeleteOutcome where
  resp : HttpResp
  gwCalled : Bool
  logged : List GwError
deriving DecidableEq

/-- The POST /delete handler, src/server.js lines 222-236. -/
def deleteHandler (_b : DeleteBody) (gw : Except GwError Unit) : DeleteOutcome :=
  match gw with
  | .ok _ => { resp := ⟨200, .deletedOk⟩, gwCalled := true, logged := [] }
  | .error e => { resp := ⟨500, .errorMsg e.message⟩, gwCalled := true, logged := [e] }

/-- A request as seen by the auth middleware: method, path, the
`x-api-key` header (`none` when absent), and whether the parsed JSON
body is empty (`!req.body || Object.keys(req.body).length === 0`). -/
structure Request where
  method : String
  path : String
  apiKey : Option String
  bodyEmpty : Bool
deriving DecidableEq

/-- What the middleware does with a request: pass it on to the route
handlers (`next()`), or answer immediately with a status and an
optional `{error: message}` body. -/
inductive AuthResult where
  | next
  | respond (status : Nat) (msg : Option String)
deriving DecidableEq

/-- The fixed allow-list of public paths, src/server.js lines 63-70. -/
def openPaths : List String :=
  ["/", "/status", "/mcp.json", "/.well-known/mcp.json",
   "/__vf_mcp_check", "/__vf_mcp_validate"]

/-- The auth middleware, src/server.js lines 62-89, with its early
returns linearized: open paths pass; with a falsy key, OPTIONS gets
`sendStatus(200)` and an empty body passes; otherwise the key is
strict-compared against `REQUIRED_KEY` (`process.env.MCP_API_KEY`,
`none` when the variable is unset). -/
def authMiddleware (requiredKey : Option String) (req : Request) : AuthResult :=
  if openPaths.contains req.path then .next
  else if jsFalsy req.apiKey && req.method == "OPTIONS" then .respond 200 none
  else if jsFalsy req.apiKey && req.bodyEmpty then .next
  else if req.apiKey ≠ requiredKey then .respond 401 (some "Unauthorized")
  else .next

/-- Hexadecimal digit characters of distinct values below 16 are
distinct. -/
lemma hexDigit_inj : ∀ a < 16, ∀ b < 16, hexDigit a = hexDigit b → a = b := by
  decide

/-- A byte is determined by the hex characters of its two nibbles. -/
lemma byteFromHex_eq {a b : Nat} (ha : a < 256) (hb : b < 256)
    (h1 : hexDigit (a / 16) = hexDigit (b / 16))
    (h2 : hexDigit (a % 16) = hexDigit (b % 16)) : a = b := by
  have d1 := hexDigit_inj (a / 16) (by omega) (b / 16) (by omega) h1
  have d2 := hexDigit_inj (a % 16) (by omega) (b % 16) (by omega) h2
  omega

/-- Masking preserves byte-validity. -/
lemma uuidMask_valid {x : Bytes16} (hx : x.valid) : (uuidMask x).valid := by
  cases x
  simp only [Bytes16.valid] at hx
  simp only [uuidMask, Bytes16.valid]
  omega

/-- The UUID hex rendering is injective on byte-valid inputs. -/
lemma uuidChars_inj : ∀ x y : Bytes16, x.valid → y.valid →
    uuidChars x = uuidChars y → x = y := by
  rintro ⟨x0, x1, x2, x3, x4, x5, x6, x7, x8, x9, x10, x11, x12, x13, x14, x15⟩
    ⟨y0, y1, y2, y3, y4, y5, y6, y7, y8, y9, y10, y11, y12, y13, y14, y15⟩ hx hy h
  unfold Bytes16.valid at hx hy
  obtain ⟨v0, v1, v2, v3, v4, v5, v6, v7, v8, v9, v10, v11, v12, v13, v14, v15⟩ := hx
  obtain ⟨w0, w1, w2, w3, w4, w5, w6, w7, w8, w9, w10, w11, w12, w13, w14, w15⟩ := hy
  simp only [uuidChars, List.cons.injEq, and_true] at h
  simp only [Bytes16.mk.injEq]
  obtain ⟨h0a, h0b, h1a, h1b, h2a, h2b, h3a, h3b, _, h4a, h4b, h5a, h5b, _,
    h6a, h6b, h7a, h7b, _, h8a, h8b, h9a, h9b, _, h10a, h10b, h11a, h11b,
    h12a, h12b, h13a, h13b, h14a, h14b, h15a, h15b⟩ := h
  exact ⟨byteFromHex_eq v0 w0 h0a h0b, byteFromHex_eq v1 w1 h1a h1b,
    byteFromHex_eq v2 w2 h2a h2b, byteFromHex_eq v3 w3 h3a h3b,
    byteFromHex_eq v4 w4 h4a h4b, byteFromHex_eq v5 w5 h5a h5b,
    byteFromHex_eq v6 w6 h6a h6b, byteFromHex_eq v7 w7 h7a h7b,
    byteFromHex_eq v8 w8 h8a h8b, byteFromHex_eq v9 w9 h9a h9b,
    byteFromHex_eq v10 w10 h10a h10b, byteFromHex_eq v11 w11 h11a h11b,
    byteFromHex_eq v12 w12 h12a h12b, byteFromHex_eq v13 w13 h13a h13b,
    byteFromHex_eq v14 w14 h14a h14b, byteFromHex_eq v15 w15 h15a h15b⟩

/-- Two uuidv4 strings agree only when the masked random bytes agree. -/
lemma uuidString_inj {x y : Bytes16} (hx : x.valid) (hy : y.valid)
    (h : uuidString x = uuidString y) : uuidMask x = uuidMask y :=
  uuidChars_inj _ _ (uuidMask_valid hx) (uuidMask_valid hy) (congrArg String.data h)

/-- A uuidv4 string is never empty. -/
lemma uuidString_ne_empty (x : Bytes16) : uuidString x ≠ "" := by
  intro h
  have h2 := congrArg String.data h
  simp [uuidString, uuidChars] at h2

/-- If the parsed start instant has UTC weekday Sunday (0) or
Saturday (6), the code's weekend test fires. -/
lemma isWeekend_of_weekday {tz : Int} {v : JsVal} {ms : Int}
    (hms : jsNewDate tz v = some ms)
    (h : utcWeekday ms = 0 ∨ utcWeekday ms = 6) :
    isWeekend tz v = true := by
  unfold isWeekend
  rw [hms]
  rcases h with h | h <;> simp [h]

/-- If the parsed start instant has a weekday other than Sunday and
Saturday, the weekend test does not fire. -/
lemma isWeekend_eq_false_of_weekday {tz : Int} {v : JsVal} {ms : Int}
    (hms : jsNewDate tz v = some ms)
    (h0 : utcWeekday ms ≠ 0) (h6 : utcWeekday ms ≠ 6) :
    isWeekend tz v = false := by
  unfold isWeekend
  rw [hms]
  simp [h0, h6]

/-- On an Invalid Date the weekend test returns false. -/
lemma isWeekend_eq_false_of_invalid {tz : Int} {v : JsVal}
    (h : jsNewDate tz v = none) : isWeekend tz v = false := by
  unfold isWeekend
  rw [h]

/-- Every value the middleware can return. -/
lemma authMiddleware_cases (rk : Option String) (req : Request) :
    authMiddleware rk req = .next ∨
    authMiddleware rk req = .respond 200 none ∨
    authMiddleware rk req = .respond 401 (some "Unauthorized") := by
  unfold authMiddleware
  split
  · exact Or.inl rfl
  split
  · exact Or.inr (Or.inl rfl)
  split
  · exact Or.inl rfl
  split
  · exact Or.inr (Or.inr rfl)
  · exact Or.inl rfl

/-- C1: for every POST /check whose start timestamp's UTC weekday is
Saturday or Sunday, the response is HTTP 200
`{available:false, reason:"weekend_not_allowed"}`, regardless of the
end value and of what the Calendar Gateway would return, and no range
query is sent to the Calendar Gateway. -/
theorem check_weekend_rejects (tz : Int) (b : CheckBody) (gw : GwListResult)
    (seed : Bytes16) (ms : Int)
    (hms : jsNewDate tz b.start = some ms)
    (hwd : utcWeekday ms = 0 ∨ utcWeekday ms = 6) :
    checkHandler tz b gw seed =
      { resp := ⟨200, .availFalse "weekend_not_allowed"⟩,
        gwQueried := false, queryMin := none, queryMax := none } := by
  simp [checkHandler, isWeekend_of_weekday hms hwd]

theorem check_weekend_rejects_witness :
    checkHandler 0 ⟨.str "2024-06-08T09:00:00Z", .str "2024-06-08T10:00:00Z"⟩
        (.ok [⟨"busy"⟩]) ⟨0, 0, 0, 0, 0, 0, 0, 0, 0, 0, 0, 0, 0, 0, 0, 0⟩ =
      { resp := ⟨200, .availFalse "weekend_not_allowed"⟩,
        gwQueried := false, queryMin := none, queryMax := none } :=
  check_weekend_rejects 0 _ _ _ 1717837200000 (by decide) (by decide)

/-- C2: for every POST /check whose start is a valid non-weekend
instant and for which the Calendar Gateway's range query over
[start, end) returns one or more events, the response is HTTP 200
`{available:false, reason:"double_booking"}` — a body carrying no
token — and the range query carried exactly the given start and end. -/
theorem check_double_booking (tz : Int) (b : CheckBody) (items : List CalEvent)
    (seed : Bytes16) (ms : Int)
    (hms : jsNewDate tz b.start = some ms)
    (h0 : utcWeekday ms ≠ 0) (h6 : utcWeekday ms ≠ 6)
    (hi : items ≠ []) :
    checkHandler tz b (.ok items) seed =
      { resp := ⟨200, .availFalse "double_booking"⟩,
        gwQueried := true, queryMin := some b.start, queryMax := some b.endv } := by
  have hw := isWeekend_eq_false_of_weekday hms h0 h6
  have hl : decide (items.length > 0) = true := by
    cases items with
    | nil => exact absurd rfl hi
    | cons a l => simp
  simp [checkHandler, hasConflict, hw, hl]

theorem check_double_booking_witness :
    checkHandler 0 ⟨.str "2024-06-10T09:00:00Z", .str "2024-06-10T10:00:00Z"⟩
        (.ok [⟨"busy"⟩]) ⟨0, 0, 0, 0, 0, 0, 0, 0, 0, 0, 0, 0, 0, 0, 0, 0⟩ =
      { resp := ⟨200, .availFalse "double_booking"⟩,
        gwQueried := true,
        queryMin := some (.str "2024-06-10T09:00:00Z"),
        queryMax := some (.str "2024-06-10T10:00:00Z") } :=
  check_double_booking 0 _ _ _ 1718010000000 (by decide) (by decide) (by decide)
    (by decide)

/-- C3: for every POST /check whose start is a valid non-weekend
instant and for which the Calendar Gateway returns zero events, the
response is HTTP 200 `{available:true, token}`; the token is the
uuidv4 rendering of the call's fresh random bytes, is non-empty, and
two such calls whose retained random bits differ receive distinct
tokens. -/
theorem check_available_fresh_token (tz : Int) (b : CheckBody) (s t : Bytes16)
    (ms : Int) (hms : jsNewDate tz b.start = some ms)
    (h0 : utcWeekday ms ≠ 0) (h6 : utcWeekday ms ≠ 6)
    (hs : s.valid) (ht : t.valid) (hst : uuidMask s ≠ uuidMask t) :
    (checkHandler tz b (.ok []) s).resp = ⟨200, .availTrue (uuidString s)⟩ ∧
    uuidString s ≠ "" ∧ uuidString s ≠ uuidString t := by
  refine ⟨?_, uuidString_ne_empty s, ?_⟩
  · have hw := isWeekend_eq_false_of_weekday hms h0 h6
    simp [checkHandler, hasConflict, hw]
  · intro h
    exact hst (uuidString_inj hs ht h)

theorem check_available_fresh_token_witness :
    (checkHandler 0 ⟨.str "2024-06-10T09:00:00Z", .str "2024-06-10T10:00:00Z"⟩
        (.ok []) ⟨0, 0, 0, 0, 0, 0, 0, 0, 0, 0, 0, 0, 0, 0, 0, 0⟩).resp =
      ⟨200, .availTrue (uuidString ⟨0, 0, 0, 0, 0, 0, 0, 0, 0, 0, 0, 0, 0, 0, 0, 0⟩)⟩ ∧
    uuidString ⟨0, 0, 0, 0, 0, 0, 0, 0, 0, 0, 0, 0, 0, 0, 0, 0⟩ ≠ "" ∧
    uuidString ⟨0, 0, 0, 0, 0, 0, 0, 0, 0, 0, 0, 0, 0, 0, 0, 0⟩ ≠
      uuidString ⟨1, 0, 0, 0, 0, 0, 0, 0, 0, 0, 0, 0, 0, 0, 0, 0⟩ :=
  check_available_fresh_token 0 _ _ _ 1718010000000 (by decide) (by decide)
    (by decide) (by decide) (by decide) (by decide)

/-- C4: every POST /create whose token field is absent or the empty
string is answered HTTP 400 `{error:"No reservation token"}`, and no
insert is sent to the Calendar Gateway. -/
theorem create_missing_token (b : CreateBody) (gw : Except GwError String)
    (h : b.token = none ∨ b.token = some "") :
    createHandler b gw =
      { resp := ⟨400, .errorMsg "No reservation token"⟩,
        gwCalled := false, sentEvent := none, logged := [] } := by
  have hf : jsFalsy b.token = true := by
    rcases h with h | h <;> simp [jsFalsy, h]
  simp [createHandler, hf]

theorem create_missing_token_witness :
    createHandler
        ⟨some "", some "Cleaning", .str "2024-06-10T09:00:00Z",
          .str "2024-06-10T10:00:00Z", none⟩ (.ok "evt-1") =
      { resp := ⟨400, .errorMsg "No reservation token"⟩,
        gwCalled := false, sentEvent := none, logged := [] } :=
  create_missing_token _ _ (Or.inr rfl)

/-- C5 counterexample: with MCP_API_KEY unset, a keyless POST /check
with a non-empty body is passed through to the handler rather than
being answered with an HTTP 500 "server misconfigured" response. -/
theorem auth_missing_secret_counterexample :
    authMiddleware none ⟨"POST", "/check", none, false⟩ = .next := by
  rfl

/-- C5 amended: when MCP_API_KEY is absent the middleware never
produces any HTTP 500 misconfiguration response; instead, a
protected-path request carrying a non-empty x-api-key is answered 401
Unauthorized (string !== undefined), and a non-OPTIONS protected-path
request with no x-api-key header at all is passed through to the
handler (undefined !== undefined fails). -/
theorem auth_missing_secret_behavior (req : Request)
    (hp : req.path ∉ openPaths) :
    (∀ m, authMiddleware none req ≠ .respond 500 m) ∧
    (req.apiKey = none → req.method ≠ "OPTIONS" →
      authMiddleware none req = .next) ∧
    (∀ k, req.apiKey = some k → k ≠ "" →
      authMiddleware none req = .respond 401 (some "Unauthorized")) := by
  refine ⟨?_, ?_, ?_⟩
  · intro m h
    rcases authMiddleware_cases none req with hc | hc | hc <;> rw [hc] at h <;>
      simp at h
  · intro hk hm
    simp [authMiddleware, hp, hk, hm, jsFalsy]
  · intro k hk hke
    simp [authMiddleware, hp, hk, hke, jsFalsy]

theorem auth_missing_secret_behavior_witness :
    authMiddleware none ⟨"POST", "/check", some "wrong-key", false⟩ =
      .respond 401 (some "Unauthorized") :=
  (auth_missing_secret_behavior ⟨"POST", "/check", some "wrong-key", false⟩
    (by decide)).2.2 "wrong-key" rfl (by decide)

/-- C6 counterexample: two protected-path requests with no credential
header and a non-empty body that are not answered 401: an OPTIONS
request is answered 200, and when MCP_API_KEY is unset a keyless POST
is passed through. -/
theorem auth_no_credential_counterexample :
    authMiddleware (some "secret-key") ⟨"OPTIONS", "/check", none, false⟩ =
      .respond 200 none ∧
    authMiddleware none ⟨"POST", "/check", none, false⟩ = .next :=
  ⟨rfl, rfl⟩

/-- C6 amended: provided MCP_API_KEY is configured and the request is
not an OPTIONS preflight, a protected-path request carrying no
x-api-key header is rejected 401 when its body is non-empty and is
passed through to the handler unauthenticated when its body is
empty. -/
theorem auth_no_credential_gate (k : String) (req : Request)
    (hp : req.path ∉ openPaths)
    (hm : req.method ≠ "OPTIONS")
    (hk : req.apiKey = none) :
    (req.bodyEmpty = false →
      authMiddleware (some k) req = .respond 401 (some "Unauthorized")) ∧
    (req.bodyEmpty = true → authMiddleware (some k) req = .next) := by
  constructor <;> intro hb <;> simp [authMiddleware, hp, hm, hk, hb, jsFalsy]

theorem auth_no_credential_gate_witness :
    authMiddleware (some "secret-key") ⟨"POST", "/check", none, false⟩ =
      .respond 401 (some "Unauthorized") :=
  (auth_no_credential_gate "secret-key" ⟨"POST", "/check", none, false⟩
    (by decide) (by decide) rfl).1 rfl

/-- C7: for /create (with a token present), /update and /delete,
a failing Calendar Gateway call yields HTTP 500 with the terse
`{error: err.message}` body; the gateway error (including its
diagnostic `detail`) goes to the server-side log, and the response
does not depend on the detail — so the detail is never included in
the response. -/
theorem gateway_failure_generic (cb : CreateBody) (ub : UpdateBody)
    (db : DeleteBody) (e : GwError)
    (ht : jsFalsy cb.token = false) :
    (createHandler cb (.error e)).resp = ⟨500, .errorMsg e.message⟩ ∧
    (createHandler cb (.error e)).logged = [e] ∧
    (∀ d, (createHandler cb (.error ⟨e.message, d⟩)).resp =
      (createHandler cb (.error e)).resp) ∧
    (updateHandler ub (.error e)).resp = ⟨500, .errorMsg e.message⟩ ∧
    (updateHandler ub (.error e)).logged = [e] ∧
    (∀ d, (updateHandler ub (.error ⟨e.message, d⟩)).resp =
      (updateHandler ub (.error e)).resp) ∧
    (deleteHandler db (.error e)).resp = ⟨500, .errorMsg e.message⟩ ∧
    (deleteHandler db (.error e)).logged = [e] ∧
    (∀ d, (deleteHandler db (.error ⟨e.message, d⟩)).resp =
      (deleteHandler db (.error e)).resp) := by
  refine ⟨?_, ?_, fun d => ?_, ?_, ?_, fun d => ?_, ?_, ?_, fun d => ?_⟩ <;>
    simp [createHandler, updateHandler, deleteHandler, ht]

theorem gateway_failure_generic_witness :
    (createHandler
        ⟨some "tok-1", some "Cleaning", .str "2024-06-10T09:00:00Z",
          .str "2024-06-10T10:00:00Z", none⟩
        (.error ⟨"boom", some "secret upstream detail"⟩)).resp =
      ⟨500, .errorMsg "boom"⟩ :=
  (gateway_failure_generic _ ⟨some "ev1", .str "s", .str "e"⟩ ⟨some "ev1"⟩
    ⟨"boom", some "secret upstream detail"⟩ (by decide)).1

/-- C8 counterexample: an OPTIONS request to the protected path
/check carrying a wrong x-api-key value reaches the key comparison in
the middleware and is answered 401 — its credential is inspected. -/
theorem auth_options_counterexample :
    authMiddleware (some "secret-key")
        ⟨"OPTIONS", "/check", some "wrong-key", true⟩ =
      .respond 401 (some "Unauthorized") := by
  rfl

/-- C8 amended: the middleware's OPTIONS allowance applies only to
requests whose x-api-key is falsy (absent or empty): those are
answered 200 with no credential comparison, while an OPTIONS request
carrying a non-empty x-api-key that differs from the configured key
is answered 401. -/
theorem auth_options_gate (rk : Option String) (req : Request)
    (hp : req.path ∉ openPaths)
    (hm : req.method = "OPTIONS") :
    (jsFalsy req.apiKey = true → authMiddleware rk req = .respond 200 none) ∧
    (jsFalsy req.apiKey = false → req.apiKey ≠ rk →
      authMiddleware rk req = .respond 401 (some "Unauthorized")) := by
  constructor
  · intro hk
    simp [authMiddleware, hp, hm, hk]
  · intro hk hne
    simp [authMiddleware, hp, hk, hne]

theorem auth_options_gate_witness :
    authMiddleware (some "secret-key") ⟨"OPTIONS", "/check", none, true⟩ =
      .respond 200 none :=
  (auth_options_gate (some "secret-key") ⟨"OPTIONS", "/check", none, true⟩
    (by decide) rfl).1 (by decide)

/-- C9 counterexample: the spec's example start
"2024-06-08T09:00:00+12:00" denotes the UTC instant
2024-06-07T21:00:00Z, a Friday, so the weekend test is false at this
input and /check does not answer weekend_not_allowed (with a clear
calendar it answers available). -/
theorem check_example_counterexample :
    isWeekend 0 (.str "2024-06-08T09:00:00+12:00") = false ∧
    (checkHandler 0
        ⟨.str "2024-06-08T09:00:00+12:00", .str "2024-06-08T10:00:00+12:00"⟩
        (.ok []) ⟨0, 0, 0, 0, 0, 0, 0, 0, 0, 0, 0, 0, 0, 0, 0, 0⟩).resp.body ≠
      .availFalse "weekend_not_allowed" := by
  refine ⟨by decide, by decide⟩

/-- C9 amended: the example start parses to a UTC Friday (weekday 5),
so /check proceeds past the weekend rule on it; the example holds one
day later: start "2024-06-09T09:00:00+12:00" (the UTC instant
2024-06-08T21:00:00Z, a Saturday) is answered
`{available:false, reason:"weekend_not_allowed"}` with no gateway
query. -/
theorem check_example_amended :
    jsNewDate 0 (.str "2024-06-08T09:00:00+12:00") = some 1717794000000 ∧
    utcWeekday 1717794000000 = 5 ∧
    checkHandler 0
        ⟨.str "2024-06-09T09:00:00+12:00", .str "2024-06-09T10:00:00+12:00"⟩
        (.ok []) ⟨0, 0, 0, 0, 0, 0, 0, 0, 0, 0, 0, 0, 0, 0, 0, 0⟩ =
      { resp := ⟨200, .availFalse "weekend_not_allowed"⟩,
        gwQueried := false, queryMin := none, queryMax := none } := by
  refine ⟨by decide, by decide, by decide⟩

/-- C10: for every start value that does not parse as a valid
date-time (absent, malformed string, or a non-coercible object), the
weekend test returns false, and POST /check proceeds to the Calendar
Gateway range query carrying the unvalidated start and end — it never
answers weekend_not_allowed for such input. -/
theorem check_invalid_start_passthrough (tz : Int) (b : CheckBody)
    (gw : GwListResult) (seed : Bytes16)
    (h : jsNewDate tz b.start = none) :
    isWeekend tz b.start = false ∧
    (checkHandler tz b gw seed).gwQueried = true ∧
    (checkHandler tz b gw seed).queryMin = some b.start ∧
    (checkHandler tz b gw seed).queryMax = some b.endv ∧
    (checkHandler tz b gw seed).resp.body ≠ .availFalse "weekend_not_allowed" := by
  have hw := isWeekend_eq_false_of_invalid h
  have hgw : ∀ p : CheckOutcome → Prop,
      (∀ m, p ⟨⟨500, .errorMsg m⟩, true, some b.start, some b.endv⟩) →
      (p ⟨⟨200, .availFalse "double_booking"⟩, true, some b.start, some b.endv⟩) →
      (p ⟨⟨200, .availTrue (uuidString seed)⟩, true, some b.start, some b.endv⟩) →
      p (checkHandler tz b gw seed) := by
    intro p he hd ha
    unfold checkHandler
    rw [hw]
    cases gw with
    | err e => exact he _
    | ok items =>
      cases hl : decide (items.length > 0) <;> simp [hasConflict, hl] <;>
        first
          | exact hd
          | exact ha
  refine ⟨hw, ?_, ?_, ?_, ?_⟩
  · exact hgw (fun o => o.gwQueried = true) (fun m => rfl) rfl rfl
  · exact hgw (fun o => o.queryMin = some b.start) (fun m => rfl) rfl rfl
  · exact hgw (fun o => o.queryMax = some b.endv) (fun m => rfl) rfl rfl
  · exact hgw (fun o => o.resp.body ≠ .availFalse "weekend_not_allowed")
      (fun m => by simp) (by simp) (by simp)

theorem check_invalid_start_passthrough_witness :
    isWeekend 7 (.str "not-a-date") = false ∧
    (checkHandler 7 ⟨.str "not-a-date", .str "also-not-a-date"⟩
        (.ok []) ⟨0, 0, 0, 0, 0, 0, 0, 0, 0, 0, 0, 0, 0, 0, 0, 0⟩).gwQueried = true ∧
    (checkHandler 7 ⟨.str "not-a-date", .str "also-not-a-date"⟩
        (.ok []) ⟨0, 0, 0, 0, 0, 0, 0, 0, 0, 0, 0, 0, 0, 0, 0, 0⟩).queryMin =
      some (.str "not-a-date") ∧
    (checkHandler 7 ⟨.str "not-a-date", .str "also-not-a-date"⟩
        (.ok []) ⟨0, 0, 0, 0, 0, 0, 0, 0, 0, 0, 0, 0, 0, 0, 0, 0⟩).queryMax =
      some (.str "also-not-a-date") ∧
    (checkHandler 7 ⟨.str "not-a-date", .str "also-not-a-date"⟩
        (.ok []) ⟨0, 0, 0, 0, 0, 0, 0, 0, 0, 0, 0, 0, 0, 0, 0, 0⟩).resp.body ≠
      .availFalse "weekend_not_allowed" :=
  check_invalid_start_passthrough 7 ⟨.str "not-a-date", .str "also-not-a-date"⟩
    (.ok []) ⟨0, 0, 0, 0, 0, 0, 0, 0, 0, 0, 0, 0, 0, 0, 0, 0⟩ (by decide)

example : daysFromCivil 1970 1 1 = 0 := by decide
example : daysFromCivil 2024 6 7 = 19881 := by decide
example : jsParseDate 0 "2024-06-08T09:00:00+12:00" = some 1717794000000 := by decide
example : utcWeekday 1717794000000 = 5 := by decide
example : isWeekend 0 (.str "2024-06-08T09:00:00+12:00") = false := by decide
example : isWeekend 0 (.str "2024-06-08T09:00:00Z") = true := by decide
example : isWeekend 0 (.str "garbage") = false := by decide
example : isWeekend 0 .undef = false := by decide

end VfDentist
